import Mathlib

/-!
Shallow embedding of the request-correlation core of the Project_Template
IBKR bridge (src/handlers/ibkr_api_wrapper.py, ibkr_base_handler.py,
ibkr_option_handler.py), together with proofs about its event handlers,
connection lifecycle, id generation and contract-qualification search.

Python dictionaries are modelled as association lists with first-match
lookup and in-place update; asyncio futures are modelled as a heap of
future slots (future-object id `fid` mapped to a slot state), since the
Python code hands out references to future objects that outlive their
entry in the `futures` table.
-/

namespace ProjectTemplate

/-! ### Association-list dictionaries (Python `dict` semantics) -/

/-- `d.get(k)` / `k in d`: first-match lookup. -/
def dlookup {K A : Type} [DecidableEq K] : List (K × A) → K → Option A
  | [], _ => none
  | (a, v) :: rest, k => if a = k then some v else dlookup rest k

/-- `d[k] = v`: update in place if the key is present, else append. -/
def dinsert {K A : Type} [DecidableEq K] : List (K × A) → K → A → List (K × A)
  | [], k, v => [(k, v)]
  | (a, w) :: rest, k, v => if a = k then (a, v) :: rest else (a, w) :: dinsert rest k v

/-- Apply `f` to the value stored at `k` (first occurrence), if any. -/
def dupdate {K A : Type} [DecidableEq K] : List (K × A) → K → (A → A) → List (K × A)
  | [], _, _ => []
  | (a, v) :: rest, k, f => if a = k then (a, f v) :: rest else (a, v) :: dupdate rest k f

/-- `d.pop(k, None)`: remove the entry for `k`, if any. -/
def dpop {K A : Type} [DecidableEq K] : List (K × A) → K → List (K × A)
  | [], _ => []
  | (a, v) :: rest, k => if a = k then rest else (a, v) :: dpop rest k

/-! ### Futures and the safe setters (`IBKROfficialAPIWrapper._safe_set_future_*`) -/

/-- The structured error `IBKRApiError(reqId, code, message, advancedOrderRejectJson)`. -/
structure IBKRApiError where
  reqId : Int
  code : Int
  message : String
  advancedOrderRejectJson : String
deriving DecidableEq

/-- State of one asyncio future slot. -/
inductive FutureState (V : Type) where
  | pending : FutureState V
  | resolved (v : V) : FutureState V
  | failed (e : IBKRApiError) : FutureState V
deriving DecidableEq

/-- `future.done()`. -/
def FutureState.done {V : Type} : FutureState V → Bool
  | .pending => false
  | .resolved _ => true
  | .failed _ => true

/-- The heap of future objects: future-object id to slot state. -/
abbrev Heap (V : Type) := List (Nat × FutureState V)

/-- `_safe_set_future_result(future, result)`: no-op on `None` or on a done
future, otherwise sets the result (the event-loop marshalling branch and the
direct branch both end by setting the result). -/
def _safe_set_future_result {V : Type} (h : Heap V) (future : Option Nat) (v : V) :
    Heap V :=
  match future with
  | none => h
  | some fid => dupdate h fid (fun st => if st.done then st else FutureState.resolved v)

/-- `_safe_set_future_exception(future, exception)`: no-op on `None` or on a
done future, otherwise sets the exception. -/
def _safe_set_future_exception {V : Type} (h : Heap V) (future : Option Nat)
    (e : IBKRApiError) : Heap V :=
  match future with
  | none => h
  | some fid => dupdate h fid (fun st => if st.done then st else FutureState.failed e)

/-! ### Wrapper state (`IBKROfficialAPIWrapper`) -/

/-- One accumulation buffer in `request_data_store`: a Python list of data
events or a Python dict of key-value pairs, with event payloads abstracted
to a type `E`. -/
inductive StoreVal (E : Type) where
  | slist (xs : List E)
  | smap (m : List (String × E))
deriving DecidableEq

/-- A resolved value handed to a future: an accumulated buffer, or the
order-status payload of `orderStatus`. -/
inductive RVal (E : Type) where
  | ofStore (v : StoreVal E)
  | orderResult (status : String) (filled : Int)
deriving DecidableEq

/-- The mutable state of `IBKROfficialAPIWrapper` that the correlation layer
touches: the future heap, the `futures` table (request id to future-object
id), `request_data_store`, the dedicated position slot, and the
connection-established flag. -/
structure Wrapper (E : Type) where
  heap : Heap (RVal E)
  futures : List (Int × Nat)
  request_data_store : List (Int × StoreVal E)
  positions_future : Option Nat
  positions_data : List E
  initial_connection_made : Bool
deriving DecidableEq

/-- The fixed allow-list of informational error codes in `error`. -/
def IGNORABLE_ERROR_CODES : List Int := [10167, 2104, 2106, 2108, 2158]

/-- The `error` callback: allow-listed codes are logged and the handler
returns; otherwise, if `reqId != -1 and reqId in self.futures`, the future
is failed with `IBKRApiError(reqId, errorCode, errorString, advanced)`;
otherwise the error is only logged as orphaned. -/
def error {E : Type} (s : Wrapper E) (reqId errorCode : Int) (errorString : String)
    (advancedOrderRejectJson : String) : Wrapper E :=
  if errorCode ∈ IGNORABLE_ERROR_CODES then s
  else if reqId ≠ -1 ∧ (dlookup s.futures reqId).isSome then
    { s with heap := (_safe_set_future_exception s.heap (dlookup s.futures reqId)
        ⟨reqId, errorCode, errorString, advancedOrderRejectJson⟩) }
  else s

/-- The error `IBKRApiError(-1, -1, "Connection closed by IBKR")` broadcast
by `connectionClosed`. -/
def connectionClosedErr : IBKRApiError := ⟨-1, -1, "Connection closed by IBKR", ""⟩

/-- The `connectionClosed` callback: clears the connection flag, fails every
future in `self.futures.values()` and the positions future with the
connection-closed error, then clears the futures table, the data store, and
the position slot. -/
def connectionClosed {E : Type} (s : Wrapper E) : Wrapper E :=
  let heap1 := s.futures.foldl
    (fun h p => _safe_set_future_exception h (some p.2) connectionClosedErr) s.heap
  let heap2 := _safe_set_future_exception heap1 s.positions_future connectionClosedErr
  { s with
      initial_connection_made := false
      heap := heap2
      futures := []
      request_data_store := []
      positions_future := none
      positions_data := [] }

/-- The `historicalData` callback: for a registered id, initialise the buffer
to `[]` if absent and append the bar. If the buffer is a dict, Python would
raise `AttributeError` on `.append` (modelled as `none`). -/
def historicalData {E : Type} (s : Wrapper E) (reqId : Int) (bar : E) :
    Option (Wrapper E) :=
  if (dlookup s.futures reqId).isSome then
    match dlookup s.request_data_store reqId with
    | none => some { s with
        request_data_store := dinsert s.request_data_store reqId (StoreVal.slist [bar]) }
    | some (StoreVal.slist xs) => some { s with
        request_data_store := dinsert s.request_data_store reqId (StoreVal.slist (xs ++ [bar])) }
    | some (StoreVal.smap _) => none
  else some s

/-- The `historicalDataEnd` callback: for a registered id, resolve the future
with `request_data_store.get(reqId, [])`. -/
def historicalDataEnd {E : Type} (s : Wrapper E) (reqId : Int) : Wrapper E :=
  if (dlookup s.futures reqId).isSome then
    let result := (dlookup s.request_data_store reqId).getD (StoreVal.slist [])
    { s with heap := (_safe_set_future_result s.heap (dlookup s.futures reqId)
        (RVal.ofStore result)) }
  else s

/-- The `contractDetails` callback: same list-append shape as `historicalData`. -/
def contractDetails {E : Type} (s : Wrapper E) (reqId : Int) (cd : E) :
    Option (Wrapper E) :=
  if (dlookup s.futures reqId).isSome then
    match dlookup s.request_data_store reqId with
    | none => some { s with
        request_data_store := dinsert s.request_data_store reqId (StoreVal.slist [cd]) }
    | some (StoreVal.slist xs) => some { s with
        request_data_store := dinsert s.request_data_store reqId (StoreVal.slist (xs ++ [cd])) }
    | some (StoreVal.smap _) => none
  else some s

/-- The `contractDetailsEnd` callback: resolve with the accumulated list,
defaulting to `[]`. -/
def contractDetailsEnd {E : Type} (s : Wrapper E) (reqId : Int) : Wrapper E :=
  if (dlookup s.futures reqId).isSome then
    let result := (dlookup s.request_data_store reqId).getD (StoreVal.slist [])
    { s with heap := (_safe_set_future_result s.heap (dlookup s.futures reqId)
        (RVal.ofStore result)) }
  else s

/-- The `securityDefinitionOptionParameter` callback: append one parameter
set per event to the list buffer of a registered id. -/
def securityDefinitionOptionParameter {E : Type} (s : Wrapper E) (reqId : Int) (p : E) :
    Option (Wrapper E) :=
  if (dlookup s.futures reqId).isSome then
    match dlookup s.request_data_store reqId with
    | none => some { s with
        request_data_store := dinsert s.request_data_store reqId (StoreVal.slist [p]) }
    | some (StoreVal.slist xs) => some { s with
        request_data_store := dinsert s.request_data_store reqId (StoreVal.slist (xs ++ [p])) }
    | some (StoreVal.smap _) => none
  else some s

/-- Transliteration of `securityDefinitionOptionParameterEnd`. The source
calls `self._safe_set_future_result(reqId, result)`, passing the integer
`reqId` where the future object is expected. Inside the setter,
`if future and not future.done()` then evaluates `reqId.done()`: for a
truthy (nonzero) `reqId` the call raises `AttributeError` (modelled as
`none`); for `reqId = 0` the falsy int short-circuits the guard and nothing
happens. Either way the slot is never resolved. -/
def securityDefinitionOptionParameterEnd {E : Type} (s : Wrapper E) (reqId : Int) :
    Option (Wrapper E) :=
  if (dlookup s.futures reqId).isSome then
    if reqId = 0 then some s else none
  else some s

/-- The `_store_tick_data` helper shared by `tickPrice`/`tickSize`/
`tickString`/`tickGeneric`: for a registered id, reinitialise the buffer to
a dict if it is not one, then set one key to the tick value. -/
def _store_tick_data {E : Type} (s : Wrapper E) (reqId : Int) (tick_name : String)
    (value : E) : Wrapper E :=
  if (dlookup s.futures reqId).isSome then
    let m := match dlookup s.request_data_store reqId with
      | some (StoreVal.smap m) => m
      | _ => []
    { s with request_data_store :=
        dinsert s.request_data_store reqId (StoreVal.smap (dinsert m tick_name value)) }
  else s

/-- The `tickSnapshotEnd` callback: resolve with the accumulated dict,
defaulting to `{}`. -/
def tickSnapshotEnd {E : Type} (s : Wrapper E) (reqId : Int) : Wrapper E :=
  if (dlookup s.futures reqId).isSome then
    let result := (dlookup s.request_data_store reqId).getD (StoreVal.smap [])
    { s with heap := (_safe_set_future_result s.heap (dlookup s.futures reqId)
        (RVal.ofStore result)) }
  else s

/-- The `accountSummary` callback: for a registered id, reinitialise the
buffer to a dict if it is not one, then set the tag to the value. -/
def accountSummary {E : Type} (s : Wrapper E) (reqId : Int) (tag : String) (value : E) :
    Wrapper E :=
  if (dlookup s.futures reqId).isSome then
    let m := match dlookup s.request_data_store reqId with
      | some (StoreVal.smap m) => m
      | _ => []
    { s with request_data_store :=
        dinsert s.request_data_store reqId (StoreVal.smap (dinsert m tag value)) }
  else s

/-- The `accountSummaryEnd` callback: resolve with the accumulated dict,
defaulting to `{}`. -/
def accountSummaryEnd {E : Type} (s : Wrapper E) (reqId : Int) : Wrapper E :=
  if (dlookup s.futures reqId).isSome then
    let result := (dlookup s.request_data_store reqId).getD (StoreVal.smap [])
    { s with heap := (_safe_set_future_result s.heap (dlookup s.futures reqId)
        (RVal.ofStore result)) }
  else s

/-- The designated terminal order statuses in `orderStatus`. -/
def TERMINAL_STATES : List String := ["Filled", "Cancelled", "ApiCancelled", "Inactive"]

/-- The `orderStatus` callback: for a registered order id, resolve the
future with the status payload on a terminal state or on `"Submitted"`;
all other statuses do nothing. -/
def orderStatus {E : Type} (s : Wrapper E) (orderId : Int) (status : String)
    (filled : Int) : Wrapper E :=
  if (dlookup s.futures orderId).isSome then
    if status ∈ TERMINAL_STATES then
      { s with heap := (_safe_set_future_result s.heap (dlookup s.futures orderId)
          (RVal.orderResult status filled)) }
    else if status = "Submitted" then
      { s with heap := (_safe_set_future_result s.heap (dlookup s.futures orderId)
          (RVal.orderResult status filled)) }
    else s
  else s

/-! ### The inbound event stream -/

/-- One inbound named callback from the receiver thread. -/
inductive Event (E : Type) where
  | evHistoricalData (reqId : Int) (bar : E)
  | evHistoricalDataEnd (reqId : Int)
  | evContractDetails (reqId : Int) (cd : E)
  | evContractDetailsEnd (reqId : Int)
  | evSecDefOptParam (reqId : Int) (p : E)
  | evSecDefOptParamEnd (reqId : Int)
  | evTick (reqId : Int) (tick_name : String) (value : E)
  | evTickSnapshotEnd (reqId : Int)
  | evAccountSummary (reqId : Int) (tag : String) (value : E)
  | evAccountSummaryEnd (reqId : Int)
  | evOrderStatus (orderId : Int) (status : String) (filled : Int)
  | evError (reqId code : Int) (msg advanced : String)
  | evConnectionClosed
deriving DecidableEq

/-- Dispatch one inbound event to its handler; `none` models an uncaught
exception inside the callback. -/
def step {E : Type} (s : Wrapper E) : Event E → Option (Wrapper E)
  | .evHistoricalData r b => historicalData s r b
  | .evHistoricalDataEnd r => some (historicalDataEnd s r)
  | .evContractDetails r c => contractDetails s r c
  | .evContractDetailsEnd r => some (contractDetailsEnd s r)
  | .evSecDefOptParam r p => securityDefinitionOptionParameter s r p
  | .evSecDefOptParamEnd r => securityDefinitionOptionParameterEnd s r
  | .evTick r n v => some (_store_tick_data s r n v)
  | .evTickSnapshotEnd r => some (tickSnapshotEnd s r)
  | .evAccountSummary r t v => some (accountSummary s r t v)
  | .evAccountSummaryEnd r => some (accountSummaryEnd s r)
  | .evOrderStatus o st f => some (orderStatus s o st f)
  | .evError r c m a => some (error s r c m a)
  | .evConnectionClosed => some (connectionClosed s)

/-- Run a list of inbound events in arrival order. -/
def runEvents {E : Type} (s : Wrapper E) : List (Event E) → Option (Wrapper E)
  | [] => some s
  | e :: rest => (step s e).bind (fun s1 => runEvents s1 rest)

/-! ### Lemmas about the connection-closed broadcast -/

/-! ### RequestFacade operations (`IBKRBaseHandler` / `IBKROptionHandler`)

Each typed operation is modelled by its effect on the wrapper state plus the
list of calls it issues on the socket client. `evolve` stands for whatever
inbound events arrive while the caller awaits its future; the part after
`evolve` is the `finally` block of the source, which runs on success,
timeout and error alike. -/

/-- A call issued on the `EClient` socket handle. -/
inductive ClientCall where
  | reqAccountSummaryCall (reqId : Int)
  | cancelAccountSummaryCall (reqId : Int)
  | reqMktDataCall (reqId : Int)
  | cancelMktDataCall (reqId : Int)
  | reqContractDetailsCall (reqId : Int)
  | reqHistoricalDataCall (reqId : Int)
  | reqSecDefOptParamsCall (reqId : Int)
  | placeOrderCall (orderId : Int)
  | reqPositionsCall
  | cancelPositionsCall
deriving DecidableEq

/-- `get_account_summary_async`: registers the slot and an empty dict buffer,
issues `reqAccountSummary`, awaits, and in its `finally` block only issues
`cancelAccountSummary` — it never pops `futures[req_id]` or
`request_data_store[req_id]`. -/
def get_account_summary_async {E : Type} (s : Wrapper E) (req_id : Int) (fid : Nat)
    (evolve : Wrapper E → Wrapper E) : Wrapper E × List ClientCall :=
  let s1 := { s with
      futures := dinsert s.futures req_id fid
      request_data_store := dinsert s.request_data_store req_id (StoreVal.smap []) }
  let s2 := evolve s1
  (s2, [ClientCall.reqAccountSummaryCall req_id, ClientCall.cancelAccountSummaryCall req_id])

/-- `request_market_data_snapshot_async`: registers the slot and an empty
dict buffer, issues `reqMktData`, awaits, and in its `finally` block issues
`cancelMktData` and pops both the future and the data-store entry. -/
def request_market_data_snapshot_async {E : Type} (s : Wrapper E) (req_id : Int)
    (fid : Nat) (evolve : Wrapper E → Wrapper E) : Wrapper E × List ClientCall :=
  let s1 := { s with
      futures := dinsert s.futures req_id fid
      request_data_store := dinsert s.request_data_store req_id (StoreVal.smap []) }
  let s2 := evolve s1
  let s3 := { s2 with
      futures := dpop s2.futures req_id
      request_data_store := dpop s2.request_data_store req_id }
  (s3, [ClientCall.reqMktDataCall req_id, ClientCall.cancelMktDataCall req_id])

/-- `execute_order_async`: registers only the future, issues `placeOrder`,
awaits, and in its `finally` block pops the future. -/
def execute_order_async {E : Type} (s : Wrapper E) (order_id : Int) (fid : Nat)
    (evolve : Wrapper E → Wrapper E) : Wrapper E × List ClientCall :=
  let s1 := { s with futures := dinsert s.futures order_id fid }
  let s2 := evolve s1
  let s3 := { s2 with futures := dpop s2.futures order_id }
  (s3, [ClientCall.placeOrderCall order_id])

/-- `request_contract_details_async`: registers the slot and an empty list
buffer, issues `reqContractDetails`, awaits, and in its `finally` block pops
both entries. -/
def request_contract_details_async {E : Type} (s : Wrapper E) (req_id : Int) (fid : Nat)
    (evolve : Wrapper E → Wrapper E) : Wrapper E × List ClientCall :=
  let s1 := { s with
      futures := dinsert s.futures req_id fid
      request_data_store := dinsert s.request_data_store req_id (StoreVal.slist []) }
  let s2 := evolve s1
  let s3 := { s2 with
      futures := dpop s2.futures req_id
      request_data_store := dpop s2.request_data_store req_id }
  (s3, [ClientCall.reqContractDetailsCall req_id])

/-- `request_historical_data_async`: registers the slot and an empty list
buffer, issues `reqHistoricalData`, awaits, and in its `finally` block pops
both entries. -/
def request_historical_data_async {E : Type} (s : Wrapper E) (req_id : Int) (fid : Nat)
    (evolve : Wrapper E → Wrapper E) : Wrapper E × List ClientCall :=
  let s1 := { s with
      futures := dinsert s.futures req_id fid
      request_data_store := dinsert s.request_data_store req_id (StoreVal.slist []) }
  let s2 := evolve s1
  let s3 := { s2 with
      futures := dpop s2.futures req_id
      request_data_store := dpop s2.request_data_store req_id }
  (s3, [ClientCall.reqHistoricalDataCall req_id])

/-- `request_sec_def_opt_params_async` (option handler): registers the slot
and an empty list buffer, issues `reqSecDefOptParams`, awaits, and in its
`finally` block pops both entries. -/
def request_sec_def_opt_params_async {E : Type} (s : Wrapper E) (req_id : Int) (fid : Nat)
    (evolve : Wrapper E → Wrapper E) : Wrapper E × List ClientCall :=
  let s1 := { s with
      futures := dinsert s.futures req_id fid
      request_data_store := dinsert s.request_data_store req_id (StoreVal.slist []) }
  let s2 := evolve s1
  let s3 := { s2 with
      futures := dpop s2.futures req_id
      request_data_store := dpop s2.request_data_store req_id }
  (s3, [ClientCall.reqSecDefOptParamsCall req_id])

/-- `get_portfolio_positions_async`: arms the dedicated position slot, issues
`reqPositions`, awaits, and in its `finally` block issues `cancelPositions`
and clears the position slot. -/
def get_portfolio_positions_async {E : Type} (s : Wrapper E) (fid : Nat)
    (evolve : Wrapper E → Wrapper E) : Wrapper E × List ClientCall :=
  let s1 := { s with positions_future := some fid, positions_data := [] }
  let s2 := evolve s1
  let s3 := { s2 with positions_future := none }
  (s3, [ClientCall.reqPositionsCall, ClientCall.cancelPositionsCall])

/-! ### ConnectionManager state (`IBKRBaseHandler`) -/

/-- The connection-visible state of `IBKRBaseHandler`: the wrapper, the
socket client handle (`self.client.isConnected()`), and the
`_is_connected_flag`. -/
structure HandlerState (E : Type) where
  wrapper : Wrapper E
  client_isConnected : Bool
  is_connected_flag : Bool
deriving DecidableEq

/-- `is_connected()`: `self.client.isConnected() and self._is_connected_flag`. -/
def is_connected {E : Type} (s : HandlerState E) : Bool :=
  s.client_isConnected && s.is_connected_flag

/-- The `finally` block of `_client_thread_target`, run when the receiver
thread exits: if the client still reports itself connected, signal
`connectionClosed` on the wrapper; then clear `_is_connected_flag`. -/
def _client_thread_target_exit {E : Type} (s : HandlerState E) : HandlerState E :=
  let s1 := if s.client_isConnected
    then { s with wrapper := connectionClosed s.wrapper }
    else s
  { s1 with is_connected_flag := false }

/-- Connection-lifecycle transitions of `IBKRBaseHandler`. -/
inductive HEvent where
  | connectSuccess
  | disconnectDone
  | shutdownClient
  | threadExit
  | socketState (b : Bool)
deriving DecidableEq

/-- One lifecycle transition: `connectSuccess` is the tail of a successful
`connect()` (`_is_connected_flag = True`, reached only after the
handshake-completion event); `disconnectDone` is the tail of `disconnect()`;
`shutdownClient` is `_shutdown_client_and_thread`; `threadExit` is the
receiver-thread exit handler; `socketState b` is the externally driven
socket status reported by `EClient.isConnected()`. -/
def hstep {E : Type} (s : HandlerState E) : HEvent → HandlerState E
  | .connectSuccess => { s with is_connected_flag := true }
  | .disconnectDone =>
      { s with
          client_isConnected := false
          is_connected_flag := false
          wrapper := { s.wrapper with initial_connection_made := false } }
  | .shutdownClient => { s with client_isConnected := false, is_connected_flag := false }
  | .threadExit => _client_thread_target_exit s
  | .socketState b => { s with client_isConnected := b }

/-- Run a list of lifecycle transitions. -/
def runH {E : Type} (s : HandlerState E) : List HEvent → HandlerState E
  | [] => s
  | e :: rest => runH (hstep s e) rest

/-! ### Request-id generation (`IBKRBaseHandler`) -/

/-- The request-id counter `self._req_id_counter`. -/
structure ReqIdCounter where
  _req_id_counter : Int
deriving DecidableEq

/-- `get_next_req_id`: under the lock, replace a zero counter with the
time-based fallback `int(time.time() * 1000) % 1000000`, then increment and
return the counter. `now_ms` is the current wall clock in milliseconds. -/
def get_next_req_id (s : ReqIdCounter) (now_ms : Nat) : Int × ReqIdCounter :=
  let c := if s._req_id_counter = 0 then ((now_ms : Int) % 1000000) else s._req_id_counter
  (c + 1, ⟨c + 1⟩)

/-- `_initialize_req_id_counter` (named `init_req_id_counter` here): seed the
counter from the gateway-provided `next_valid_order_id` when positive,
otherwise from the time-based fallback. -/
def init_req_id_counter (next_valid_order_id : Int) (now_ms : Nat) : ReqIdCounter :=
  if next_valid_order_id > 0 then ⟨next_valid_order_id⟩
  else ⟨(now_ms : Int) % 1000000⟩

/-! ### ContractResolver (`IBKROptionHandler._qualify_option_contract`) -/

/-- One qualification attempt: the routing exchange and the
primary-exchange hint set on the candidate contract (empty when unset). -/
structure AttemptCfg where
  exchange : String
  primaryExchange : String
deriving DecidableEq

/-- The common primary-exchange hints tried under SMART routing. -/
def common_prim_exchanges : List String :=
  ["CBOE", "NASDAQOM", "ARCA", "AMEX", "ISE", "BOX"]

/-- The known US options exchanges tried directly. -/
def common_us_option_exchanges : List String :=
  ["CBOE", "AMEX", "PHLX", "ISE", "NASDAQOM", "BOX", "ARCA", "GEMINI", "MIAX",
   "PEARL", "EMERALD", "NASDAQBX"]

/-- Python `str.upper()` on the ASCII exchange codes involved: uppercase
each character (structural recursion over the character list, so that
concrete instances evaluate). -/
def upperString (s : String) : String := ⟨s.data.map Char.toUpper⟩

/-- The ordered attempt list built by `_qualify_option_contract` from the
preferred exchange `pref` (empty string when the caller gave none):
the preference first if given; SMART with each primary-exchange hint when
there is no preference or it is SMART; each known options exchange skipping
a duplicate of the preference; a final blank-exchange attempt only if a
preference was given. -/
def buildAttemptConfigs (pref : String) : List AttemptCfg :=
  (if pref ≠ "" then [⟨upperString pref, ""⟩] else []) ++
  (if pref = "" ∨ upperString pref = "SMART"
    then common_prim_exchanges.map (fun p => ⟨"SMART", p⟩) else []) ++
  ((common_us_option_exchanges.filter
      (fun ex => !(pref != "" && ex == upperString pref))).map (fun ex => ⟨ex, ""⟩)) ++
  (if pref ≠ "" then [⟨"", ""⟩] else [])

/-- Outcome of one `request_contract_details_async` attempt: a detail list,
an `IBKRApiError`, or a timeout. -/
inductive QResult (E : Type) where
  | ok (details : List E)
  | apiErr (code : Int) (msg : String)
  | timeoutErr
deriving DecidableEq

/-- An attempt wins exactly when it returns a non-empty detail list. -/
def QResult.isMatch {E : Type} : QResult E → Bool
  | .ok (_ :: _) => true
  | _ => false

/-- The attempt loop of `_qualify_option_contract`: try the candidates in
order; the first attempt whose detail list is non-empty returns its first
detail; an empty list, API error or timeout falls through to the next
candidate. Returns the qualified result (if any) and the number of attempts
made. `results i` is the gateway outcome of attempt number `i`. -/
def qualifyLoop {E : Type} (results : Nat → QResult E) :
    List AttemptCfg → Nat → Option E × Nat
  | [], _ => (none, 0)
  | _ :: rest, i =>
    match results i with
    | .ok (d :: _) => (some d, 1)
    | _ =>
      let r := qualifyLoop results rest (i + 1)
      (r.1, r.2 + 1)

/-- `_qualify_option_contract` restricted to its search structure: build the
attempt list for the preferred exchange and run the loop. -/
def _qualify_option_contract {E : Type} (pref : String) (results : Nat → QResult E) :
    Option E × Nat :=
  qualifyLoop results (buildAttemptConfigs pref) 0

/-! ### Concrete states used to instantiate the theorems -/

/-- A small concrete wrapper state: one pending future (object id 0)
registered for request id 1 with an empty list buffer, as
`request_historical_data_async` or `request_sec_def_opt_params_async`
leave it after registration. -/
def sampleWrapper : Wrapper Nat :=
  ⟨[(0, FutureState.pending)], [(1, 0)], [(1, StoreVal.slist [])], none, [], true⟩

/-- Like `sampleWrapper` but with no data-store entry for the id: no data
event has arrived yet and no buffer was pre-registered. -/
def sampleWrapperNoBuf : Wrapper Nat :=
  ⟨[(0, FutureState.pending)], [(1, 0)], [], none, [], true⟩

/-- A wrapper with nothing registered, as right after construction. -/
def sampleWrapperEmpty : Wrapper Nat :=
  ⟨[], [], [], none, [], true⟩

/-! ## Helper lemmas -/

theorem dlookup_dupdate_self {K A : Type} [DecidableEq K] (l : List (K × A)) (k : K)
    (f : A → A) : dlookup (dupdate l k f) k = (dlookup l k).map f := by
  induction l with
  | nil => rfl
  | cons p rest ih =>
    obtain ⟨a, v⟩ := p
    by_cases h : a = k
    · subst h; simp [dupdate, dlookup]
    · simp [dupdate, dlookup, h, ih]

theorem dlookup_dupdate_ne {K A : Type} [DecidableEq K] (l : List (K × A)) (k k' : K)
    (f : A → A) (h : k' ≠ k) : dlookup (dupdate l k f) k' = dlookup l k' := by
  induction l with
  | nil => rfl
  | cons p rest ih =>
    obtain ⟨a, v⟩ := p
    by_cases h1 : a = k
    · subst h1
      have h2 : ¬ a = k' := fun hc => h (hc ▸ rfl)
      simp [dupdate, dlookup, h2]
    · by_cases h2 : a = k'
      · subst h2; simp [dupdate, dlookup, h1]
      · simp [dupdate, dlookup, h1, h2, ih]

theorem dupdate_fix {K A : Type} [DecidableEq K] (l : List (K × A)) (k : K) (f : A → A)
    (v : A) (hl : dlookup l k = some v) (hf : f v = v) : dupdate l k f = l := by
  induction l with
  | nil => simp [dlookup] at hl
  | cons p rest ih =>
    obtain ⟨a, w⟩ := p
    by_cases h : a = k
    · subst h
      simp [dlookup] at hl
      subst hl
      simp [dupdate, hf]
    · simp [dlookup, h] at hl
      simp [dupdate, h, ih hl]

theorem dlookup_dinsert_self {K A : Type} [DecidableEq K] (l : List (K × A)) (k : K)
    (v : A) : dlookup (dinsert l k v) k = some v := by
  induction l with
  | nil => simp [dinsert, dlookup]
  | cons p rest ih =>
    obtain ⟨a, w⟩ := p
    by_cases h : a = k
    · subst h; simp [dinsert, dlookup]
    · simp [dinsert, dlookup, h, ih]

theorem dlookup_dinsert_ne {K A : Type} [DecidableEq K] (l : List (K × A)) (k k' : K)
    (v : A) (h : k' ≠ k) : dlookup (dinsert l k v) k' = dlookup l k' := by
  induction l with
  | nil =>
    have h2 : ¬ k = k' := fun hc => h hc.symm
    simp [dinsert, dlookup, h2]
  | cons p rest ih =>
    obtain ⟨a, w⟩ := p
    by_cases h1 : a = k
    · subst h1
      have h2 : ¬ a = k' := fun hc => h (hc ▸ rfl)
      simp [dinsert, dlookup, h2]
    · by_cases h2 : a = k'
      · subst h2; simp [dinsert, dlookup, h1]
      · simp [dinsert, dlookup, h1, h2, ih]

theorem safe_result_pending {V : Type} (h : Heap V) (fid : Nat) (v : V)
    (hp : dlookup h fid = some FutureState.pending) :
    dlookup (_safe_set_future_result h (some fid) v) fid = some (FutureState.resolved v) := by
  unfold _safe_set_future_result
  rw [dlookup_dupdate_self, hp]
  rfl

theorem safe_exception_pending {V : Type} (h : Heap V) (fid : Nat) (e : IBKRApiError)
    (hp : dlookup h fid = some FutureState.pending) :
    dlookup (_safe_set_future_exception h (some fid) e) fid = some (FutureState.failed e) := by
  unfold _safe_set_future_exception
  rw [dlookup_dupdate_self, hp]
  rfl

theorem safe_exception_done {V : Type} (h : Heap V) (ofid : Option Nat) (e : IBKRApiError)
    (fid : Nat) (st : FutureState V) (hl : dlookup h fid = some st) (hd : st.done = true) :
    dlookup (_safe_set_future_exception h ofid e) fid = some st := by
  cases ofid with
  | none => exact hl
  | some fid' =>
    by_cases h1 : fid' = fid
    · subst h1
      unfold _safe_set_future_exception
      rw [dlookup_dupdate_self, hl]
      simp [hd]
    · unfold _safe_set_future_exception
      rw [dlookup_dupdate_ne _ _ _ _ (fun hc => h1 hc.symm)]
      exact hl

theorem safe_result_done_eq {V : Type} (h : Heap V) (fid : Nat) (v : V)
    (st : FutureState V) (hl : dlookup h fid = some st) (hd : st.done = true) :
    _safe_set_future_result h (some fid) v = h := by
  unfold _safe_set_future_result
  exact dupdate_fix _ _ _ _ hl (by simp [hd])

theorem safe_exception_done_eq {V : Type} (h : Heap V) (fid : Nat) (e : IBKRApiError)
    (st : FutureState V) (hl : dlookup h fid = some st) (hd : st.done = true) :
    _safe_set_future_exception h (some fid) e = h := by
  unfold _safe_set_future_exception
  exact dupdate_fix _ _ _ _ hl (by simp [hd])

theorem foldl_safe_exception_preserves_done {V : Type} (l : List (Int × Nat)) (h : Heap V)
    (fid : Nat) (st : FutureState V) (hl : dlookup h fid = some st) (hd : st.done = true) :
    dlookup (l.foldl
      (fun hh p => _safe_set_future_exception hh (some p.2) connectionClosedErr) h) fid
      = some st := by
  induction l generalizing h with
  | nil => exact hl
  | cons p rest ih =>
    exact ih _ (safe_exception_done _ _ _ _ _ hl hd)

theorem foldl_safe_exception_fails_pending {V : Type} (l : List (Int × Nat)) (h : Heap V)
    (r : Int) (fid : Nat) (hmem : (r, fid) ∈ l)
    (hp : dlookup h fid = some FutureState.pending) :
    dlookup (l.foldl
      (fun hh p => _safe_set_future_exception hh (some p.2) connectionClosedErr) h) fid
      = some (FutureState.failed connectionClosedErr) := by
  induction l generalizing h with
  | nil => cases hmem
  | cons p rest ih =>
    by_cases hf : p.2 = fid
    · have h1 : dlookup (_safe_set_future_exception h (some p.2) connectionClosedErr) fid
          = some (FutureState.failed connectionClosedErr) := by
        rw [hf]
        exact safe_exception_pending _ _ _ hp
      exact foldl_safe_exception_preserves_done rest _ fid _ h1 rfl
    · have hmem1 : (r, fid) ∈ rest := by
        rcases List.mem_cons.mp hmem with h0 | h0
        · exact absurd (congrArg Prod.snd h0.symm) hf
        · exact h0
      have h2 : dlookup (_safe_set_future_exception h (some p.2) connectionClosedErr) fid
          = dlookup h fid := by
        unfold _safe_set_future_exception
        exact dlookup_dupdate_ne _ _ _ _ (fun hc => hf hc.symm)
      exact ih _ hmem1 (h2.trans hp)

theorem runH_append {E : Type} (s : HandlerState E) (l : List HEvent) (e : HEvent) :
    runH s (l ++ [e]) = hstep (runH s l) e := by
  induction l generalizing s with
  | nil => rfl
  | cons x rest ih => exact ih (hstep s x)

theorem flag_stays_false {E : Type} (s : HandlerState E) (l : List HEvent)
    (hs : s.is_connected_flag = false) (hl : ∀ x ∈ l, x ≠ HEvent.connectSuccess) :
    (runH s l).is_connected_flag = false := by
  induction l generalizing s with
  | nil => exact hs
  | cons e rest ih =>
    have he := hl e (List.mem_cons_self e rest)
    have h1 : (hstep s e).is_connected_flag = false := by
      cases e with
      | connectSuccess => exact absurd rfl he
      | disconnectDone => rfl
      | shutdownClient => rfl
      | threadExit => rfl
      | socketState b => exact hs
    exact ih _ h1 (fun x hx => hl x (List.mem_cons_of_mem _ hx))

theorem qualifyLoop_match {E : Type} (results : Nat → QResult E) (cfg : AttemptCfg)
    (rest : List AttemptCfg) (i : Nat) (d : E) (ds : List E)
    (h : results i = QResult.ok (d :: ds)) :
    qualifyLoop results (cfg :: rest) i = (some d, 1) := by
  unfold qualifyLoop
  rw [h]

theorem qualifyLoop_no_match {E : Type} (results : Nat → QResult E) (cfg : AttemptCfg)
    (rest : List AttemptCfg) (i : Nat) (h : (results i).isMatch = false) :
    qualifyLoop results (cfg :: rest) i
      = ((qualifyLoop results rest (i + 1)).1, (qualifyLoop results rest (i + 1)).2 + 1) := by
  rcases hr : results i with ds | ⟨c, m⟩ | _
  · rcases ds with _ | ⟨x, xs⟩
    · simp [qualifyLoop, hr]
    · simp [hr, QResult.isMatch] at h
  · simp [qualifyLoop, hr]
  · simp [qualifyLoop, hr]

/-! ## Claim theorems -/

/-- Claim C2: for every correlator state, a connection close fails each live
(pending) registered slot with the connection-closed error, and afterwards
the slot table, the per-request data store, and the position slot are empty. -/
theorem C2_connectionClosed_fails_all_and_clears {E : Type} (s : Wrapper E) (reqId : Int)
    (fid : Nat) (hmem : (reqId, fid) ∈ s.futures)
    (hp : dlookup s.heap fid = some FutureState.pending) :
    dlookup (connectionClosed s).heap fid = some (FutureState.failed connectionClosedErr) ∧
    (connectionClosed s).futures = [] ∧
    (connectionClosed s).request_data_store = [] ∧
    (connectionClosed s).positions_future = none := by
  refine ⟨?_, rfl, rfl, rfl⟩
  exact safe_exception_done _ _ _ _ _
    (foldl_safe_exception_fails_pending s.futures s.heap reqId fid hmem hp) rfl

/-- Witness for C2 at a concrete state with one live pending request. -/
theorem C2_connectionClosed_fails_all_and_clears_witness :
    dlookup (connectionClosed sampleWrapper).heap 0
      = some (FutureState.failed connectionClosedErr) ∧
    (connectionClosed sampleWrapper).futures = [] ∧
    (connectionClosed sampleWrapper).request_data_store = [] ∧
    (connectionClosed sampleWrapper).positions_future = none :=
  C2_connectionClosed_fails_all_and_clears sampleWrapper 1 0 (by decide) (by decide)

/-- Claim C3: an inbound error event with an allow-listed informational code
leaves the whole correlator state unchanged (no slot is failed); an event
with a non-listed code addressed to a request id (not the broadcast id -1)
holding a registered pending slot fails exactly that slot with the
structured error carrying the id, code and message. -/
theorem C3_error_classification {E : Type} (s : Wrapper E) (reqId errorCode : Int)
    (msg adv : String) (fid : Nat) :
    (errorCode ∈ IGNORABLE_ERROR_CODES → error s reqId errorCode msg adv = s) ∧
    (errorCode ∉ IGNORABLE_ERROR_CODES → reqId ≠ -1 →
      dlookup s.futures reqId = some fid →
      dlookup s.heap fid = some FutureState.pending →
      dlookup (error s reqId errorCode msg adv).heap fid
          = some (FutureState.failed ⟨reqId, errorCode, msg, adv⟩) ∧
      (error s reqId errorCode msg adv).futures = s.futures) := by
  constructor
  · intro hmem
    unfold error
    rw [if_pos hmem]
  · intro hnot hne hf hp
    unfold error
    rw [if_neg hnot, if_pos ⟨hne, by rw [hf]; rfl⟩]
    refine ⟨?_, rfl⟩
    show dlookup
      (_safe_set_future_exception s.heap (dlookup s.futures reqId) ⟨reqId, errorCode, msg, adv⟩)
      fid = _
    rw [hf]
    exact safe_exception_pending _ _ _ hp

/-- Witness for C3: code 2104 is absorbed; code 200 fails the pending slot. -/
theorem C3_error_classification_witness :
    error sampleWrapper 1 2104 "farm ok" "" = sampleWrapper ∧
    dlookup (error sampleWrapper 1 200 "No security definition" "").heap 0
      = some (FutureState.failed ⟨1, 200, "No security definition", ""⟩) :=
  ⟨(C3_error_classification sampleWrapper 1 2104 "farm ok" "" 0).1 (by decide),
   ((C3_error_classification sampleWrapper 1 200 "No security definition" "" 0).2
      (by decide) (by decide) (by decide) (by decide)).1⟩

/-- Claim C4: once a future slot is done (resolved or failed), both safe
setters are no-ops that leave the heap unchanged and raise nothing, and a
data event for an id that is no longer registered (e.g. unregistered after
a timeout) is dropped without touching the state. -/
theorem C4_resolve_fail_idempotent {E : Type} (s : Wrapper E) (h : Heap (RVal E))
    (fid : Nat) (st : FutureState (RVal E)) (v : RVal E) (e : IBKRApiError) (reqId : Int)
    (bar : E) (hl : dlookup h fid = some st) (hd : st.done = true)
    (hunreg : dlookup s.futures reqId = none) :
    _safe_set_future_result h (some fid) v = h ∧
    _safe_set_future_exception h (some fid) e = h ∧
    historicalData s reqId bar = some s := by
  refine ⟨safe_result_done_eq _ _ _ _ hl hd, safe_exception_done_eq _ _ _ _ hl hd, ?_⟩
  unfold historicalData
  rw [hunreg]
  rfl

/-- Witness for C4 on a resolved slot and an unregistered id. -/
theorem C4_resolve_fail_idempotent_witness :
    _safe_set_future_result [(0, FutureState.resolved (RVal.ofStore (StoreVal.slist [9])))]
        (some 0) (RVal.ofStore (StoreVal.slist []))
      = [(0, FutureState.resolved (RVal.ofStore (StoreVal.slist [9])))] ∧
    _safe_set_future_exception [(0, FutureState.resolved (RVal.ofStore (StoreVal.slist [9])))]
        (some 0) connectionClosedErr
      = [(0, FutureState.resolved (RVal.ofStore (StoreVal.slist [9])))] ∧
    historicalData sampleWrapper 2 7 = some sampleWrapper :=
  C4_resolve_fail_idempotent sampleWrapper
    [(0, FutureState.resolved (RVal.ofStore (StoreVal.slist [9])))] 0
    (FutureState.resolved (RVal.ofStore (StoreVal.slist [9])))
    (RVal.ofStore (StoreVal.slist [])) connectionClosedErr 2 7
    (by decide) (by decide) (by decide)

/-- Claim C10: when a terminal event arrives for a registered pending slot
before any data event has been stored, the slot resolves successfully with
the empty collection of the kind: the empty list for historical bars and
contract details, the empty map for market-data snapshots and account
summaries. -/
theorem C10_terminal_without_data_resolves_empty {E : Type} (s : Wrapper E) (reqId : Int)
    (fid : Nat) (hf : dlookup s.futures reqId = some fid)
    (hd : dlookup s.request_data_store reqId = none)
    (hp : dlookup s.heap fid = some FutureState.pending) :
    dlookup (historicalDataEnd s reqId).heap fid
      = some (FutureState.resolved (RVal.ofStore (StoreVal.slist []))) ∧
    dlookup (contractDetailsEnd s reqId).heap fid
      = some (FutureState.resolved (RVal.ofStore (StoreVal.slist []))) ∧
    dlookup (tickSnapshotEnd s reqId).heap fid
      = some (FutureState.resolved (RVal.ofStore (StoreVal.smap []))) ∧
    dlookup (accountSummaryEnd s reqId).heap fid
      = some (FutureState.resolved (RVal.ofStore (StoreVal.smap []))) := by
  refine ⟨?_, ?_, ?_, ?_⟩
  · unfold historicalDataEnd
    rw [hf, hd]
    exact safe_result_pending _ _ _ hp
  · unfold contractDetailsEnd
    rw [hf, hd]
    exact safe_result_pending _ _ _ hp
  · unfold tickSnapshotEnd
    rw [hf, hd]
    exact safe_result_pending _ _ _ hp
  · unfold accountSummaryEnd
    rw [hf, hd]
    exact safe_result_pending _ _ _ hp

/-- Witness for C10 at a state with a registered slot and no stored data. -/
theorem C10_terminal_without_data_resolves_empty_witness :
    dlookup (historicalDataEnd sampleWrapperNoBuf 1).heap 0
      = some (FutureState.resolved (RVal.ofStore (StoreVal.slist []))) ∧
    dlookup (contractDetailsEnd sampleWrapperNoBuf 1).heap 0
      = some (FutureState.resolved (RVal.ofStore (StoreVal.slist []))) ∧
    dlookup (tickSnapshotEnd sampleWrapperNoBuf 1).heap 0
      = some (FutureState.resolved (RVal.ofStore (StoreVal.smap []))) ∧
    dlookup (accountSummaryEnd sampleWrapperNoBuf 1).heap 0
      = some (FutureState.resolved (RVal.ofStore (StoreVal.smap []))) :=
  C10_terminal_without_data_resolves_empty sampleWrapperNoBuf 1 0
    (by decide) (by decide) (by decide)

/-- Claim C7: an order-status event for a registered pending order slot
resolves it with the status-and-filled payload exactly when the status is a
designated terminal state or "Submitted"; any other status (such as
PendingSubmit or PreSubmitted) leaves the state completely unchanged, so it
never resolves the slot. -/
theorem C7_orderStatus_resolution {E : Type} (s : Wrapper E) (orderId : Int) (fid : Nat)
    (status : String) (filled : Int) :
    (dlookup s.futures orderId = some fid →
      dlookup s.heap fid = some FutureState.pending →
      (status ∈ TERMINAL_STATES ∨ status = "Submitted") →
      dlookup (orderStatus s orderId status filled).heap fid
        = some (FutureState.resolved (RVal.orderResult status filled))) ∧
    (status ∉ TERMINAL_STATES → status ≠ "Submitted" →
      orderStatus s orderId status filled = s) := by
  constructor
  · intro hf hp hstat
    unfold orderStatus
    rw [hf]
    by_cases hmem : status ∈ TERMINAL_STATES
    · rw [if_pos hmem]
      exact safe_result_pending _ _ _ hp
    · rcases hstat with hmem1 | hsub
      · exact absurd hmem1 hmem
      · rw [if_neg hmem, if_pos hsub]
        exact safe_result_pending _ _ _ hp
  · intro hts hsub
    unfold orderStatus
    rw [if_neg hts, if_neg hsub]
    exact ite_self s

/-- Witness for C7: "Submitted" resolves the slot; "PendingSubmit" is a
no-op. -/
theorem C7_orderStatus_resolution_witness :
    dlookup (orderStatus sampleWrapper 1 "Submitted" 3).heap 0
      = some (FutureState.resolved (RVal.orderResult "Submitted" 3)) ∧
    orderStatus sampleWrapper 1 "PendingSubmit" 0 = sampleWrapper :=
  ⟨(C7_orderStatus_resolution sampleWrapper 1 0 "Submitted" 3).1
      (by decide) (by decide) (Or.inr rfl),
   (C7_orderStatus_resolution sampleWrapper 1 0 "PendingSubmit" 0).2
      (by decide) (by decide)⟩

/-- Claim C1 (code bug): list-kind data events for a registered id each
append one element in arrival order — three `securityDefinitionOptionParameter`
events yield a 3-element buffer, and the historical-bars and contract-details
kinds do resolve their slot with the 3-element list on the terminal event —
but the option-parameters terminal event never resolves the slot: the source
passes the integer `reqId` instead of the future to `_safe_set_future_result`,
so the callback raises `AttributeError` (modelled as `none`). -/
theorem C1_option_params_end_never_resolves :
    (runEvents sampleWrapper
        [Event.evSecDefOptParam 1 10, Event.evSecDefOptParam 1 11,
         Event.evSecDefOptParam 1 12]).map (fun s => dlookup s.request_data_store 1)
      = some (some (StoreVal.slist [10, 11, 12])) ∧
    runEvents sampleWrapper
        [Event.evSecDefOptParam 1 10, Event.evSecDefOptParam 1 11,
         Event.evSecDefOptParam 1 12, Event.evSecDefOptParamEnd 1] = none ∧
    (runEvents sampleWrapper
        [Event.evHistoricalData 1 10, Event.evHistoricalData 1 11,
         Event.evHistoricalData 1 12, Event.evHistoricalDataEnd 1]).map
        (fun s => dlookup s.heap 0)
      = some (some (FutureState.resolved (RVal.ofStore (StoreVal.slist [10, 11, 12])))) ∧
    (runEvents sampleWrapper
        [Event.evContractDetails 1 10, Event.evContractDetails 1 11,
         Event.evContractDetails 1 12, Event.evContractDetailsEnd 1]).map
        (fun s => dlookup s.heap 0)
      = some (some (FutureState.resolved (RVal.ofStore (StoreVal.slist [10, 11, 12])))) := by
  decide

/-- Claim C6 (code bug): every typed operation has an always-run cleanup
step, and the streaming-style ones send their explicit cancel call, but
`get_account_summary_async` never unregisters its slot: after the operation
its request id is still in the futures table and its buffer is still in the
data store, while every other operation pops its entries. -/
theorem C6_cleanup_unregister_divergence :
    dlookup (get_account_summary_async sampleWrapperEmpty 5 0 id).1.futures 5 = some 0 ∧
    dlookup (get_account_summary_async sampleWrapperEmpty 5 0 id).1.request_data_store 5
      = some (StoreVal.smap []) ∧
    ClientCall.cancelAccountSummaryCall 5
      ∈ (get_account_summary_async sampleWrapperEmpty 5 0 id).2 ∧
    dlookup (request_market_data_snapshot_async sampleWrapperEmpty 5 0 id).1.futures 5
      = none ∧
    dlookup (request_market_data_snapshot_async sampleWrapperEmpty 5 0 id).1.request_data_store 5
      = none ∧
    ClientCall.cancelMktDataCall 5
      ∈ (request_market_data_snapshot_async sampleWrapperEmpty 5 0 id).2 ∧
    dlookup (execute_order_async sampleWrapperEmpty 5 0 id).1.futures 5 = none ∧
    dlookup (request_contract_details_async sampleWrapperEmpty 5 0 id).1.futures 5 = none ∧
    dlookup (request_historical_data_async sampleWrapperEmpty 5 0 id).1.futures 5 = none ∧
    dlookup (request_sec_def_opt_params_async sampleWrapperEmpty 5 0 id).1.futures 5 = none ∧
    (get_portfolio_positions_async sampleWrapperEmpty 0 id).1.positions_future = none ∧
    ClientCall.cancelPositionsCall ∈ (get_portfolio_positions_async sampleWrapperEmpty 0 id).2 := by
  decide

/-- Claim C5: `_qualify_option_contract` builds its candidate list in the
documented order (preference first if given; SMART with each
primary-exchange hint when there is no preference or it is SMART; each
known options exchange skipping a duplicate of the preference; a blank
final attempt only when a preference was given — witnessed by the three
concrete expansions below), tries candidates strictly in order, and returns
the first match making no further attempts: when the first two attempts
fail and the third yields at least one match, exactly three attempts are
made and the third match is returned. -/
theorem C5_qualify_option_order_and_first_match {E : Type} (pref : String)
    (results : Nat → QResult E) (d : E) (ds : List E)
    (hlen : 3 ≤ (buildAttemptConfigs pref).length)
    (h0 : (results 0).isMatch = false) (h1 : (results 1).isMatch = false)
    (h2 : results 2 = QResult.ok (d :: ds)) :
    _qualify_option_contract pref results = (some d, 3) ∧
    buildAttemptConfigs "" =
      [⟨"SMART", "CBOE"⟩, ⟨"SMART", "NASDAQOM"⟩, ⟨"SMART", "ARCA"⟩, ⟨"SMART", "AMEX"⟩,
       ⟨"SMART", "ISE"⟩, ⟨"SMART", "BOX"⟩,
       ⟨"CBOE", ""⟩, ⟨"AMEX", ""⟩, ⟨"PHLX", ""⟩, ⟨"ISE", ""⟩, ⟨"NASDAQOM", ""⟩,
       ⟨"BOX", ""⟩, ⟨"ARCA", ""⟩, ⟨"GEMINI", ""⟩, ⟨"MIAX", ""⟩, ⟨"PEARL", ""⟩,
       ⟨"EMERALD", ""⟩, ⟨"NASDAQBX", ""⟩] ∧
    buildAttemptConfigs "CBOE" =
      [⟨"CBOE", ""⟩,
       ⟨"AMEX", ""⟩, ⟨"PHLX", ""⟩, ⟨"ISE", ""⟩, ⟨"NASDAQOM", ""⟩, ⟨"BOX", ""⟩,
       ⟨"ARCA", ""⟩, ⟨"GEMINI", ""⟩, ⟨"MIAX", ""⟩, ⟨"PEARL", ""⟩, ⟨"EMERALD", ""⟩,
       ⟨"NASDAQBX", ""⟩,
       ⟨"", ""⟩] ∧
    buildAttemptConfigs "SMART" =
      [⟨"SMART", ""⟩,
       ⟨"SMART", "CBOE"⟩, ⟨"SMART", "NASDAQOM"⟩, ⟨"SMART", "ARCA"⟩, ⟨"SMART", "AMEX"⟩,
       ⟨"SMART", "ISE"⟩, ⟨"SMART", "BOX"⟩,
       ⟨"CBOE", ""⟩, ⟨"AMEX", ""⟩, ⟨"PHLX", ""⟩, ⟨"ISE", ""⟩, ⟨"NASDAQOM", ""⟩,
       ⟨"BOX", ""⟩, ⟨"ARCA", ""⟩, ⟨"GEMINI", ""⟩, ⟨"MIAX", ""⟩, ⟨"PEARL", ""⟩,
       ⟨"EMERALD", ""⟩, ⟨"NASDAQBX", ""⟩,
       ⟨"", ""⟩] := by
  refine ⟨?_, by decide, by decide, by decide⟩
  obtain ⟨a, b, c, t3, hcfg⟩ :
      ∃ a b c t3, buildAttemptConfigs pref = a :: b :: c :: t3 := by
    rcases hcl : buildAttemptConfigs pref with _ | ⟨a, _ | ⟨b, _ | ⟨c, t3⟩⟩⟩
    · rw [hcl] at hlen; simp at hlen
    · rw [hcl] at hlen; simp at hlen
    · rw [hcl] at hlen; simp at hlen
    · exact ⟨a, b, c, t3, rfl⟩
  unfold _qualify_option_contract
  rw [hcfg, qualifyLoop_no_match results a (b :: c :: t3) 0 h0,
      qualifyLoop_no_match results b (c :: t3) (0 + 1) h1,
      qualifyLoop_match results c t3 (0 + 1 + 1) d ds h2]

/-- Witness for C5: with a preference of CBOE and a fixture where only the
third attempt matches, exactly three attempts are made. -/
theorem C5_qualify_option_order_and_first_match_witness :
    _qualify_option_contract "CBOE"
        (fun i => if i = 2 then QResult.ok [42] else QResult.timeoutErr) = (some 42, 3) :=
  (C5_qualify_option_order_and_first_match "CBOE"
      (fun i => if i = 2 then QResult.ok [42] else QResult.timeoutErr) 42 []
      (by decide) (by decide) (by decide) (by decide)).1

/-- Claim C8: `is_connected()` is true only between a successful handshake
(the only transition that raises the flag is the success tail of
`connect()`) and any close signal: the receiver-thread exit handler leaves
the socket-client status untouched yet forces `is_connected()` to false; a
run without a connect success never turns it true; and any run ending in a
thread exit, disconnect or shutdown reports false. -/
theorem C8_is_connected_only_when_live {E : Type} (s : HandlerState E) (l : List HEvent)
    (e : HEvent) :
    ((_client_thread_target_exit s).client_isConnected = s.client_isConnected ∧
      is_connected (_client_thread_target_exit s) = false) ∧
    (s.is_connected_flag = false → (∀ x ∈ l, x ≠ HEvent.connectSuccess) →
      is_connected (runH s l) = false) ∧
    ((e = HEvent.threadExit ∨ e = HEvent.disconnectDone ∨ e = HEvent.shutdownClient) →
      is_connected (runH s (l ++ [e])) = false) := by
  refine ⟨⟨?_, ?_⟩, ?_, ?_⟩
  · unfold _client_thread_target_exit
    split <;> rfl
  · simp [is_connected, _client_thread_target_exit]
  · intro hs hl
    have hh := flag_stays_false s l hs hl
    simp [is_connected, hh]
  · intro he
    rw [runH_append]
    rcases he with rfl | rfl | rfl
    · simp [hstep, is_connected, _client_thread_target_exit]
    · simp [hstep, is_connected]
    · simp [hstep, is_connected]

/-- Witness for C8: dead receiver thread with a still-open socket reports
false; socket flapping without a handshake stays false; a trace ending in a
thread exit reports false. -/
theorem C8_is_connected_only_when_live_witness :
    is_connected (_client_thread_target_exit
        (⟨sampleWrapper, true, true⟩ : HandlerState Nat)) = false ∧
    is_connected (runH (⟨sampleWrapper, true, false⟩ : HandlerState Nat)
        [HEvent.socketState true]) = false ∧
    is_connected (runH (⟨sampleWrapper, true, true⟩ : HandlerState Nat)
        ([] ++ [HEvent.threadExit])) = false :=
  ⟨(C8_is_connected_only_when_live (⟨sampleWrapper, true, true⟩ : HandlerState Nat)
      [] HEvent.threadExit).1.2,
   (C8_is_connected_only_when_live (⟨sampleWrapper, true, false⟩ : HandlerState Nat)
      [HEvent.socketState true] HEvent.threadExit).2.1 rfl (by decide),
   (C8_is_connected_only_when_live (⟨sampleWrapper, true, true⟩ : HandlerState Nat)
      [] HEvent.threadExit).2.2 (Or.inl rfl)⟩

/-- Claim C9: `get_next_req_id` is strictly monotonic over consecutive
calls, and the counter is seeded at handshake from the gateway-provided
starting id when it is positive (so the first id handed out is that seed
plus one), falling back to the timestamp-derived value otherwise. -/
theorem C9_next_id_monotonic_and_seeded (nvid c : Int) (n1 n2 now m : Nat) :
    (get_next_req_id (get_next_req_id ⟨c⟩ n1).2 n2).1 > (get_next_req_id ⟨c⟩ n1).1 ∧
    (0 < nvid → init_req_id_counter nvid now = ⟨nvid⟩ ∧
      (get_next_req_id (init_req_id_counter nvid now) m).1 = nvid + 1) ∧
    (nvid ≤ 0 → init_req_id_counter nvid now = ⟨((now : Int) % 1000000)⟩) := by
  refine ⟨?_, ?_, ?_⟩
  · simp only [get_next_req_id]
    split_ifs <;> omega
  · intro hpos
    have hne : init_req_id_counter nvid now = ⟨nvid⟩ := by
      unfold init_req_id_counter
      rw [if_pos hpos]
    refine ⟨hne, ?_⟩
    rw [hne]
    simp only [get_next_req_id]
    split_ifs with h
    · exact absurd h (by omega)
    · rfl
  · intro hnp
    unfold init_req_id_counter
    rw [if_neg (by omega)]

/-- Witness for C9: consecutive ids from a counter at 5 grow; a gateway
seed of 7 is installed and the first id handed out is 8. -/
theorem C9_next_id_monotonic_and_seeded_witness :
    (get_next_req_id (get_next_req_id ⟨5⟩ 0).2 0).1 > (get_next_req_id ⟨5⟩ 0).1 ∧
    init_req_id_counter 7 0 = ⟨7⟩ ∧
    (get_next_req_id (init_req_id_counter 7 0) 0).1 = 7 + 1 :=
  ⟨(C9_next_id_monotonic_and_seeded 7 5 0 0 0 0).1,
   ((C9_next_id_monotonic_and_seeded 7 5 0 0 0 0).2.1 (by decide)).1,
   ((C9_next_id_monotonic_and_seeded 7 5 0 0 0 0).2.1 (by decide)).2⟩

end ProjectTemplate
